import Mathlib

/-!
Shallow embedding of the Citra HLE filesystem archive service
(`src/core/hle/service/fs/archive.cpp`): the archive factory registry, the
archive handle table with its monotonic-with-skip handle allocator, the File
session protocol commands and the maintenance operation `CreateExtSaveData`,
together with proofs of the specified properties.

Machine integers are modelled as `Nat` with an explicit `% 2^64` where the
64-bit wraparound of `ArchiveHandle` matters.  External effects (backend
mutations, guest-memory icon writes) are recorded as explicit event lists so
that "no mutation occurred" is a statement about the emitted events.
-/

namespace CitraFS

/-- Modelled from the spec: the result-code constants used by `archive.cpp`
(`RESULT_SUCCESS`, `FileSys::ERROR_NOT_FOUND`,
`FileSys::ERR_INVALID_ARCHIVE_HANDLE`, `UnimplementedFunction(ErrorModule::FS)`
and the placeholder `ResultCode(-1)`) live in `core/hle/result.h` and
`core/file_sys/errors.h`, which are not under `src/`.  Per the spec's §7
taxonomy (`NotFound`, `InvalidHandle`, `Unimplemented`, `BackendError`,
`InvalidArgument`) they are pairwise distinct result classes, so they are
modelled as distinct constructors; `backendCode` stands for any opaque
backend-originated result surfaced verbatim. -/
inductive ResultCode where
  | success
  | notFound
  | invalidArchiveHandle
  | unimplemented
  | genericError
  | backendCode (code : Nat)
  deriving DecidableEq

/-- Mirrors `ResultCode::IsError` (raw value nonzero, i.e. not
`RESULT_SUCCESS`): every modelled non-success constructor is an error. -/
def ResultCode.isError : ResultCode → Bool
  | .success => false
  | _ => true

/-- Modelled from the spec: `Service::FS::MediaType` comes from a header not
under `src/`; only the distinction between NAND, SDMC and GameCard matters. -/
inductive MediaType where
  | NAND
  | SDMC
  | GameCard
  deriving DecidableEq

/-- Modelled from the spec: the numeric values of `MediaType` (used by
`static_cast<u32>(media_type)` when constructing the ext-data binary path)
come from a header not under `src/`; the values themselves are irrelevant to
the claims, only the injection into `u32` is kept. -/
def MediaType.code : MediaType → Nat
  | .NAND => 0
  | .SDMC => 1
  | .GameCard => 2

/-- Modelled from the spec: the `ArchiveIdCode` enumeration (StorageTypeId)
is declared in `archive.h`, not under `src/`; the enumerators are the ones
`archive.cpp` registers and only their distinctness matters. -/
inductive ArchiveIdCode where
  | SelfNCCH
  | SaveData
  | ExtSaveData
  | SharedExtSaveData
  | SystemSaveData
  | SDMC
  | SDMCWriteOnly
  | NCCH
  | OtherSaveDataGeneral
  | OtherSaveDataPermitted
  deriving DecidableEq

/-- Modelled from the spec: `FileSys::Path` is an opaque backend-specific
path (`archive_backend.h` is not under `src/`).  The constructors cover the
path shapes `archive.cpp` builds; `extData` is the image of
`FileSys::ConstructExtDataBinaryPath`. -/
inductive Path where
  | emptyPath
  | binary (words : List Nat)
  | extData (mediaCode high low : Nat)
  | systemSaveData (high low : Nat)
  deriving DecidableEq

/-- Modelled from the spec: `FileSys::ConstructExtDataBinaryPath` (defined in
a file not under `src/`) packs `(media_type, high, low)` into a binary path;
it is modelled as the evident injection. -/
def ConstructExtDataBinaryPath (media_type : MediaType) (high low : Nat) : Path :=
  Path.extData media_type.code high low

/-- Modelled from the spec: `FileSys::Mode` (open mode bits) is opaque to
`archive.cpp`, which only forwards it to the backend. -/
abbrev Mode := Nat

/-- Modelled from the spec: the backend file capability interface
(`core/file_sys/file_backend.h`, not under `src/`).  `read` returns the byte
count actually read together with the bytes deposited in the caller's staging
vector; `write` returns the byte count written; the backend's resize and
flush operations may fail, and their results (`setSizeRes`, `flushRes`) model
the value the protocol layer receives from `backend->SetSize` /
`backend->Flush`.  Backend-internal state change is not observable through
the claims and is not modelled. -/
structure FileBackend where
  size : Nat
  read : Nat → Nat → Except ResultCode (Nat × List Nat)
  write : Nat → Nat → Bool → List Nat → Except ResultCode Nat
  setSizeRes : Nat → ResultCode
  flushRes : ResultCode

/-- File session state (`class File` in `archive.cpp`): a logical path, a
mutable priority (initialised to `0` by the constructor) and the exclusively
owned backend file object. -/
structure File where
  path : Path
  priority : Nat
  backend : FileBackend

/-- Modelled from the spec: the Backend Capability Set
(`core/file_sys/archive_backend.h`, not under `src/`): the operations a
backend instance offers, to which the handle table delegates.  Directory
backends are opaque (`Nat`). -/
structure ArchiveOps where
  openFile : Path → Mode → Except ResultCode FileBackend
  openDirectory : Path → Except ResultCode Nat
  deleteFile : Path → ResultCode
  deleteDirectory : Path → ResultCode
  deleteDirectoryRecursively : Path → ResultCode
  createFile : Path → Nat → ResultCode
  createDirectory : Path → ResultCode
  renameFile : Path → Path → ResultCode
  renameDirectory : Path → Path → ResultCode
  freeBytes : Nat

/-- A live backend instance as stored in the handle table.  `iid` models the
C++ heap identity of the `unique_ptr<ArchiveBackend>` object: every `emplace`
stores a freshly allocated object, so instance ids are allocated from a
counter and the pointer comparison `src_archive == dest_archive` in the
rename operations is modelled as equality of `iid`. -/
structure ArchiveBackend where
  iid : Nat
  ops : ArchiveOps

/-- Modelled from the spec: an `ArchiveFactory`
(`core/file_sys/archive_backend.h`, not under `src/`): open produces a
backend instance, format and getFormatInfo act on the storage location.  The
ext-save-data factory's `WriteIcon` is modelled purely as an emitted event
(its definition is external). -/
structure ArchiveFactory where
  openArchive : Path → Except ResultCode ArchiveOps
  format : Path → Nat → ResultCode
  getFormatInfo : Path → Except ResultCode Nat

/-- The registry `id_code_map` (a `flat_map` keyed by `ArchiveIdCode`). -/
abbrev Registry := List (ArchiveIdCode × ArchiveFactory)

/-- Association-list lookup, modelling `map.find(key)` on containers with
unique keys (first match wins). -/
def assocLookup {α β : Type} [DecidableEq α] : List (α × β) → α → Option β
  | [], _ => none
  | e :: rest, k => if e.1 = k then some e.2 else assocLookup rest k

/-- `ArchiveHandle` is a `u64`; arithmetic on it wraps modulo `2^64`. -/
def wordSize : Nat := 2 ^ 64

/-- The global handle-table state of `archive.cpp`: `handle_map` (an
`unordered_map<ArchiveHandle, unique_ptr<ArchiveBackend>>`, modelled as an
association list), the allocation counter `next_handle`, and the counter
producing fresh backend instance identities (models heap allocation). -/
structure TableState where
  handle_map : List (Nat × ArchiveBackend)
  next_handle : Nat
  next_iid : Nat

/-- The keys (live handles) of a handle map. -/
def keys (m : List (Nat × ArchiveBackend)) : List Nat :=
  m.map Prod.fst

/-- One step of the allocation loop
`while (handle_map.count(next_handle) != 0) ++next_handle;` with `u64`
wraparound.  The loop is modelled with explicit fuel; `allocHandle` supplies
fuel `|keys| + 1`, which (for a duplicate-free table that is not completely
full) always suffices to reach a free value, mirroring the fact that the C++
loop returns exactly when a free value exists. -/
def allocAux : Nat → Nat → List Nat → Nat
  | 0, h, _ => h
  | fuel + 1, h, ks => if h ∈ ks then allocAux fuel ((h + 1) % wordSize) ks else h

/-- The monotonic-with-skip handle allocator of `OpenArchive`. -/
def allocHandle (ks : List Nat) (start : Nat) : Nat :=
  allocAux (ks.length + 1) start ks

/-- `GetArchive` (archive.cpp line 271): resolve a handle to its backend,
`nullptr` (`none`) when the handle is unknown. -/
def GetArchive (s : TableState) (handle : Nat) : Option ArchiveBackend :=
  assocLookup s.handle_map handle

/-- `OpenArchive` (archive.cpp line 276): registry lookup (miss returns
`FileSys::ERROR_NOT_FOUND`), factory open (`CASCADE_RESULT` propagates the
factory's error verbatim), then handle allocation, `emplace`, and
post-increment of `next_handle`. -/
def OpenArchive (reg : Registry) (id_code : ArchiveIdCode) (archive_path : Path)
    (s : TableState) : Except ResultCode Nat × TableState :=
  match assocLookup reg id_code with
  | none => (Except.error ResultCode.notFound, s)
  | some factory =>
    match factory.openArchive archive_path with
    | Except.error e => (Except.error e, s)
    | Except.ok res =>
      let h := allocHandle (keys s.handle_map) s.next_handle
      (Except.ok h,
        { handle_map := (h, { iid := s.next_iid, ops := res }) :: s.handle_map,
          next_handle := (h + 1) % wordSize,
          next_iid := s.next_iid + 1 })

/-- `CloseArchive` (archive.cpp line 294): `handle_map.erase(handle) == 0`
(nothing removed) is `ERR_INVALID_ARCHIVE_HANDLE`, otherwise success. -/
def CloseArchive (handle : Nat) (s : TableState) : ResultCode × TableState :=
  if s.handle_map.countP (fun e => e.1 == handle) = 0 then
    (ResultCode.invalidArchiveHandle, s)
  else
    (ResultCode.success,
      { s with handle_map := s.handle_map.filter (fun e => e.1 != handle) })

/-- `OpenFileFromArchive` (archive.cpp line 316): resolve the handle, delegate
to the backend's `OpenFile`, wrap the backend file in a new `File` session
(priority initialised to 0 by the `File` constructor). -/
def OpenFileFromArchive (s : TableState) (archive_handle : Nat) (path : Path)
    (mode : Mode) : Except ResultCode File :=
  match GetArchive s archive_handle with
  | none => Except.error ResultCode.invalidArchiveHandle
  | some archive =>
    match archive.ops.openFile path mode with
    | Except.error e => Except.error e
    | Except.ok backend => Except.ok { path := path, priority := 0, backend := backend }

/-- Directory session state (`class Directory`): path plus opaque backend. -/
structure Directory where
  path : Path
  backend : Nat

/-- `OpenDirectoryFromArchive` (archive.cpp line 407). -/
def OpenDirectoryFromArchive (s : TableState) (archive_handle : Nat)
    (path : Path) : Except ResultCode Directory :=
  match GetArchive s archive_handle with
  | none => Except.error ResultCode.invalidArchiveHandle
  | some archive =>
    match archive.ops.openDirectory path with
    | Except.error e => Except.error e
    | Except.ok backend => Except.ok { path := path, backend := backend }

/-- `DeleteFileFromArchive` (archive.cpp line 331). -/
def DeleteFileFromArchive (s : TableState) (archive_handle : Nat)
    (path : Path) : ResultCode :=
  match GetArchive s archive_handle with
  | none => ResultCode.invalidArchiveHandle
  | some archive => archive.ops.deleteFile path

/-- `DeleteDirectoryFromArchive` (archive.cpp line 356). -/
def DeleteDirectoryFromArchive (s : TableState) (archive_handle : Nat)
    (path : Path) : ResultCode :=
  match GetArchive s archive_handle with
  | none => ResultCode.invalidArchiveHandle
  | some archive => archive.ops.deleteDirectory path

/-- `DeleteDirectoryRecursivelyFromArchive` (archive.cpp line 364). -/
def DeleteDirectoryRecursivelyFromArchive (s : TableState) (archive_handle : Nat)
    (path : Path) : ResultCode :=
  match GetArchive s archive_handle with
  | none => ResultCode.invalidArchiveHandle
  | some archive => archive.ops.deleteDirectoryRecursively path

/-- `CreateFileInArchive` (archive.cpp line 373). -/
def CreateFileInArchive (s : TableState) (archive_handle : Nat) (path : Path)
    (file_size : Nat) : ResultCode :=
  match GetArchive s archive_handle with
  | none => ResultCode.invalidArchiveHandle
  | some archive => archive.ops.createFile path file_size

/-- `CreateDirectoryFromArchive` (archive.cpp line 382). -/
def CreateDirectoryFromArchive (s : TableState) (archive_handle : Nat)
    (path : Path) : ResultCode :=
  match GetArchive s archive_handle with
  | none => ResultCode.invalidArchiveHandle
  | some archive => archive.ops.createDirectory path

/-- `GetFreeBytesInArchive` (archive.cpp line 421). -/
def GetFreeBytesInArchive (s : TableState) (archive_handle : Nat) :
    Except ResultCode Nat :=
  match GetArchive s archive_handle with
  | none => Except.error ResultCode.invalidArchiveHandle
  | some archive => Except.ok archive.ops.freeBytes

/-- Observable external effects: backend/storage mutations performed by the
operations under verification, recorded in program order. -/
inductive Event where
  | factoryFormat (p : Path) (formatInfo : Nat)
  | writeIcon (p : Path) (size : Nat)
  | backendRenameFile (iid : Nat) (src dst : Path)
  | backendRenameDirectory (iid : Nat) (src dst : Path)
  | backendRead (offset length : Nat)
  deriving DecidableEq

/-- `RenameFileBetweenArchives` (archive.cpp line 339): resolve both handles
(`nullptr` on either side is `ERR_INVALID_ARCHIVE_HANDLE`), then compare the
two resolved backend objects by pointer (`src_archive == dest_archive`,
modelled as instance-id equality): same object delegates to the backend's
`RenameFile` (recorded as an event), different objects return
`UnimplementedFunction(ErrorModule::FS)` with no backend call. -/
def RenameFileBetweenArchives (s : TableState) (src_archive_handle : Nat)
    (src_path : Path) (dest_archive_handle : Nat) (dest_path : Path) :
    ResultCode × List Event :=
  match GetArchive s src_archive_handle, GetArchive s dest_archive_handle with
  | some src_archive, some dest_archive =>
    if src_archive.iid = dest_archive.iid then
      (src_archive.ops.renameFile src_path dest_path,
        [Event.backendRenameFile src_archive.iid src_path dest_path])
    else
      (ResultCode.unimplemented, [])
  | _, _ => (ResultCode.invalidArchiveHandle, [])

/-- `RenameDirectoryBetweenArchives` (archive.cpp line 390), same shape as
the file rename. -/
def RenameDirectoryBetweenArchives (s : TableState) (src_archive_handle : Nat)
    (src_path : Path) (dest_archive_handle : Nat) (dest_path : Path) :
    ResultCode × List Event :=
  match GetArchive s src_archive_handle, GetArchive s dest_archive_handle with
  | some src_archive, some dest_archive =>
    if src_archive.iid = dest_archive.iid then
      (src_archive.ops.renameDirectory src_path dest_path,
        [Event.backendRenameDirectory src_archive.iid src_path dest_path])
    else
      (ResultCode.unimplemented, [])
  | _, _ => (ResultCode.invalidArchiveHandle, [])

/-- `FormatArchive` (archive.cpp line 428): registry miss returns
`UnimplementedFunction(ErrorModule::FS)` (with the in-code TODO noting it may
not be the right error), otherwise delegates to the factory's `Format`. -/
def FormatArchive (reg : Registry) (id_code : ArchiveIdCode) (format_info : Nat)
    (path : Path) : ResultCode :=
  match assocLookup reg id_code with
  | none => ResultCode.unimplemented
  | some factory => factory.format path format_info

/-- `GetArchiveFormatInfo` (archive.cpp line 438): registry miss returns
`UnimplementedFunction(ErrorModule::FS)`, otherwise delegates to the
factory's `GetFormatInfo`. -/
def GetArchiveFormatInfo (reg : Registry) (id_code : ArchiveIdCode)
    (archive_path : Path) : Except ResultCode Nat :=
  match assocLookup reg id_code with
  | none => Except.error ResultCode.unimplemented
  | some factory => factory.getFormatInfo archive_path

/-- `CreateExtSaveData` (archive.cpp line 448): build the ext-data binary
path, look up the `SharedExtSaveData` (NAND) or `ExtSaveData` factory, call
`Format` (emitted as a `factoryFormat` event) and propagate its failure; only
then check `Memory::IsValidVirtualAddress(icon_buffer)` (modelled by the
supplied `memValid` predicate, since `core/memory.h` is not under `src/`),
returning the placeholder `ResultCode(-1)` on an invalid region; finally read
the icon from guest memory and write it through the factory (emitted as a
`writeIcon` event). -/
def CreateExtSaveData (reg : Registry) (memValid : Nat → Bool)
    (media_type : MediaType) (high low icon_buffer icon_size format_info : Nat) :
    ResultCode × List Event :=
  let path := ConstructExtDataBinaryPath media_type high low
  match assocLookup reg
      (if media_type = MediaType.NAND then ArchiveIdCode.SharedExtSaveData
       else ArchiveIdCode.ExtSaveData) with
  | none => (ResultCode.unimplemented, [])
  | some ext_savedata =>
    let result := ext_savedata.format path format_info
    if result.isError then
      (result, [Event.factoryFormat path format_info])
    else if memValid icon_buffer = false then
      (ResultCode.genericError, [Event.factoryFormat path format_info])
    else
      (ResultCode.success,
        [Event.factoryFormat path format_info, Event.writeIcon path icon_size])

/-- Response shape of the File `Read` command: the pushed result word, the
pushed byte count, and the writes performed into the caller's mapped buffer
(offset, bytes). -/
structure ReadResponse where
  code : ResultCode
  bytesRead : Nat
  bufferWrites : List (Nat × List Nat)
  deriving DecidableEq

/-- `File::Read` (archive.cpp line 103): the out-of-bounds condition
`offset + length > backend->GetSize()` is only logged; the backend read is
always issued with the caller's original offset and length (emitted as a
`backendRead` event).  A backend failure pushes the backend's code and a zero
byte count with no buffer write; success writes the first `*read` bytes at
buffer offset 0 and pushes `RESULT_SUCCESS` with the backend's count. -/
def File.Read (f : File) (offset length : Nat) : ReadResponse × List Event :=
  match f.backend.read offset length with
  | Except.error e =>
    ({ code := e, bytesRead := 0, bufferWrites := [] },
      [Event.backendRead offset length])
  | Except.ok (n, data) =>
    ({ code := ResultCode.success, bytesRead := n,
       bufferWrites := [(0, data.take n)] },
      [Event.backendRead offset length])

/-- `File::Write` (archive.cpp line 132): `data` is the byte vector staged
from the caller's mapped buffer; the backend's failure code is pushed with a
zero count, success pushes the backend's written count. -/
def File.Write (f : File) (offset length : Nat) (flush : Nat)
    (data : List Nat) : ResultCode × Nat :=
  match f.backend.write offset length (flush != 0) data with
  | Except.error e => (e, 0)
  | Except.ok written => (ResultCode.success, written)

/-- `File::GetSize` (archive.cpp line 156): always pushes `RESULT_SUCCESS`
and the backend size. -/
def File.GetSize (f : File) : ResultCode × Nat :=
  (ResultCode.success, f.backend.size)

/-- `File::SetSize` (archive.cpp line 163): calls `backend->SetSize` and
discards its result, then unconditionally pushes `RESULT_SUCCESS`. -/
def File.SetSize (f : File) (size : Nat) : File × ResultCode :=
  let _discarded := f.backend.setSizeRes size
  (f, ResultCode.success)

/-- `File::Flush` (archive.cpp line 177): calls `backend->Flush` and discards
its result, then unconditionally pushes `RESULT_SUCCESS`. -/
def File.Flush (f : File) : File × ResultCode :=
  let _discarded := f.backend.flushRes
  (f, ResultCode.success)

/-- `File::SetPriority` (archive.cpp line 184): stores the popped `u32` into
the session's priority field and pushes `RESULT_SUCCESS`; the backend is not
consulted. -/
def File.SetPriority (f : File) (p : Nat) : File × ResultCode :=
  ({ f with priority := p }, ResultCode.success)

/-- `File::GetPriority` (archive.cpp line 191): pushes `RESULT_SUCCESS` and
the stored priority; the backend is not consulted and the session is
unchanged. -/
def File.GetPriority (f : File) : File × (ResultCode × Nat) :=
  (f, (ResultCode.success, f.priority))

/-- `ArchiveInit` (archive.cpp line 602): the table starts empty with
`next_handle = 1` (and no backend instance allocated yet). -/
def initState : TableState :=
  { handle_map := [], next_handle := 1, next_iid := 0 }

/-- The state transitions of the handle table: a completed `OpenArchive` call
that returned a handle, or any completed `CloseArchive` call.  The length
guard on the open step models termination of the C++ allocation loop: with
every 64-bit value live the loop never returns, so no successor state
exists. -/
inductive Step (reg : Registry) : TableState → TableState → Prop where
  | openStep (id_code : ArchiveIdCode) (p : Path) (h : Nat) (s s' : TableState) :
      s.handle_map.length < wordSize →
      OpenArchive reg id_code p s = (Except.ok h, s') → Step reg s s'
  | closeStep (h : Nat) (r : ResultCode) (s s' : TableState) :
      CloseArchive h s = (r, s') → Step reg s s'

/-- States of the handle table reachable from `ArchiveInit`. -/
def Reachable (reg : Registry) (s : TableState) : Prop :=
  Relation.ReflTransGen (Step reg) initState s

/-- Well-formedness of a table state: live handles are duplicate-free 64-bit
values, the allocation counter is a 64-bit value, and backend instance
identities are fresh-bounded and pairwise distinct (each `emplace` stored a
distinct heap object). -/
def WF (s : TableState) : Prop :=
  (keys s.handle_map).Nodup ∧
  (∀ k ∈ keys s.handle_map, k < wordSize) ∧
  s.next_handle < wordSize ∧
  (∀ e ∈ s.handle_map, e.2.iid < s.next_iid) ∧
  List.Pairwise (fun a b : Nat × ArchiveBackend => a.2.iid ≠ b.2.iid) s.handle_map

/-! ### Concrete fixtures used to evaluate the definitions on closed inputs -/

/-- A backend file whose operations all fail (backend-specific codes for
read and write, errors from resize and flush). -/
def failingBackend : FileBackend :=
  { size := 4,
    read := fun _ _ => Except.error (ResultCode.backendCode 7),
    write := fun _ _ _ _ => Except.error (ResultCode.backendCode 8),
    setSizeRes := fun _ => ResultCode.genericError,
    flushRes := ResultCode.genericError }

/-- A file session over `failingBackend`. -/
def failingFile : File :=
  { path := Path.emptyPath, priority := 0, backend := failingBackend }

/-- A backend file of size 4 whose read succeeds with 3 bytes. -/
def shortBackend : FileBackend :=
  { size := 4,
    read := fun _ _ => Except.ok (3, [1, 2, 3, 4, 5, 6]),
    write := fun _ _ _ _ => Except.ok 2,
    setSizeRes := fun _ => ResultCode.success,
    flushRes := ResultCode.success }

/-- A file session over `shortBackend`. -/
def shortFile : File :=
  { path := Path.emptyPath, priority := 0, backend := shortBackend }

/-- A backend archive instance whose operations are all trivial. -/
def trivialArchiveOps : ArchiveOps :=
  { openFile := fun _ _ => Except.ok shortBackend,
    openDirectory := fun _ => Except.ok 0,
    deleteFile := fun _ => ResultCode.success,
    deleteDirectory := fun _ => ResultCode.success,
    deleteDirectoryRecursively := fun _ => ResultCode.success,
    createFile := fun _ _ => ResultCode.success,
    createDirectory := fun _ => ResultCode.success,
    renameFile := fun _ _ => ResultCode.success,
    renameDirectory := fun _ _ => ResultCode.success,
    freeBytes := 0 }

/-- A factory whose open always succeeds and whose format always succeeds. -/
def alwaysOpenFactory : ArchiveFactory :=
  { openArchive := fun _ => Except.ok trivialArchiveOps,
    format := fun _ _ => ResultCode.success,
    getFormatInfo := fun _ => Except.ok 0 }

/-- A registry with a single factory, registered under the SDMC id. -/
def regSDMC : Registry := [(ArchiveIdCode.SDMC, alwaysOpenFactory)]

/-- A registry with a single factory, registered under the ExtSaveData id. -/
def regExt : Registry := [(ArchiveIdCode.ExtSaveData, alwaysOpenFactory)]

/-- A guest-memory validity predicate under which every address is invalid. -/
def memAllInvalid : Nat → Bool := fun _ => false

/-- The table after one successful open from `initState`. -/
def oneArchState : TableState :=
  { handle_map := [(1, { iid := 0, ops := trivialArchiveOps })],
    next_handle := 2, next_iid := 1 }

/-- The table after two successful opens from `initState`. -/
def twoArchState : TableState :=
  { handle_map := [(2, { iid := 1, ops := trivialArchiveOps }),
                   (1, { iid := 0, ops := trivialArchiveOps })],
    next_handle := 3, next_iid := 2 }

/-- The table state reached after the allocation counter has wrapped all the
way around `2^64` with no archive left open. -/
def wrapState : TableState :=
  { handle_map := [], next_handle := 0, next_iid := wordSize - 1 }

/-! ### Basic facts about the handle allocator and the association lists -/

theorem wordSize_pos : 0 < wordSize := by
  norm_num [wordSize]

theorem allocAux_lt (fuel : Nat) : ∀ (h : Nat) (ks : List Nat), h < wordSize →
    allocAux fuel h ks < wordSize := by
  induction fuel with
  | zero => intro h ks hh; simpa [allocAux] using hh
  | succ n ih =>
    intro h ks hh
    by_cases hm : h ∈ ks
    · simpa [allocAux, hm] using ih _ ks (Nat.mod_lt _ wordSize_pos)
    · simpa [allocAux, hm] using hh

/-- The allocator only ever returns `(start + i) % 2^64` for some number of
loop iterations `i ≤ fuel`. -/
theorem allocAux_range (fuel : Nat) : ∀ (h : Nat) (ks : List Nat), h < wordSize →
    ∃ i, i ≤ fuel ∧ allocAux fuel h ks = (h + i) % wordSize := by
  induction fuel with
  | zero =>
    intro h ks hh
    exact ⟨0, Nat.le_refl 0, by simp [allocAux, Nat.mod_eq_of_lt hh]⟩
  | succ n ih =>
    intro h ks hh
    by_cases hm : h ∈ ks
    · obtain ⟨i, hle, heq⟩ := ih ((h + 1) % wordSize) ks (Nat.mod_lt _ wordSize_pos)
      refine ⟨i + 1, Nat.succ_le_succ hle, ?_⟩
      have step : allocAux (n + 1) h ks = allocAux n ((h + 1) % wordSize) ks := by
        simp [allocAux, hm]
      rw [step, heq, Nat.mod_add_mod]
      congr 1
      omega
    · exact ⟨0, Nat.zero_le _, by simp [allocAux, hm, Nat.mod_eq_of_lt hh]⟩

/-- If some candidate within the fuel window is free, the allocator stops at
a free value. -/
theorem allocAux_not_mem (fuel : Nat) : ∀ (h : Nat) (ks : List Nat), h < wordSize →
    (∃ i, i < fuel ∧ (h + i) % wordSize ∉ ks) → allocAux fuel h ks ∉ ks := by
  induction fuel with
  | zero =>
    intro h ks _ hex
    obtain ⟨i, hi, _⟩ := hex
    omega
  | succ n ih =>
    intro h ks hh hex
    by_cases hm : h ∈ ks
    · have step : allocAux (n + 1) h ks = allocAux n ((h + 1) % wordSize) ks := by
        simp [allocAux, hm]
      rw [step]
      apply ih _ _ (Nat.mod_lt _ wordSize_pos)
      obtain ⟨i, hi, hfree⟩ := hex
      cases i with
      | zero => exact absurd hm (by simpa [Nat.mod_eq_of_lt hh] using hfree)
      | succ j =>
        refine ⟨j, by omega, ?_⟩
        rw [Nat.mod_add_mod]
        have harg : (h + 1) + j = h + (j + 1) := by omega
        rw [harg]
        exact hfree
    · simp [allocAux, hm]

/-- Pigeonhole: a duplicate-free table that is not completely full leaves a
free candidate within the `|keys| + 1` values the allocation loop can try. -/
theorem exists_free_candidate (ks : List Nat) (h : Nat)
    (hlen : ks.length < wordSize) :
    ∃ i, i < ks.length + 1 ∧ (h + i) % wordSize ∉ ks := by
  by_contra hc
  push_neg at hc
  have hsub : ((List.range (ks.length + 1)).map (fun i => (h + i) % wordSize)) ⊆ ks := by
    intro x hx
    simp only [List.mem_map, List.mem_range] at hx
    obtain ⟨i, hi, rfl⟩ := hx
    exact hc i hi
  have hinj : ((List.range (ks.length + 1)).map (fun i => (h + i) % wordSize)).Nodup := by
    refine List.Nodup.map_on ?_ (List.nodup_range _)
    intro i hi j hj hij
    simp only [List.mem_range] at hi hj
    have hmodeq : i ≡ j [MOD wordSize] :=
      Nat.ModEq.add_left_cancel' h hij
    have hiw : i < wordSize := by omega
    have hjw : j < wordSize := by omega
    have := hmodeq
    unfold Nat.ModEq at this
    rwa [Nat.mod_eq_of_lt hiw, Nat.mod_eq_of_lt hjw] at this
  have hlen2 := (hinj.subperm hsub).length_le
  rw [List.length_map, List.length_range] at hlen2
  omega

theorem allocHandle_not_mem (ks : List Nat) (start : Nat)
    (hlen : ks.length < wordSize) (hs : start < wordSize) :
    allocHandle ks start ∉ ks := by
  have hex := exists_free_candidate ks start hlen
  exact allocAux_not_mem (ks.length + 1) start ks hs hex

theorem allocHandle_lt (ks : List Nat) (start : Nat) (hs : start < wordSize) :
    allocHandle ks start < wordSize :=
  allocAux_lt _ _ _ hs

theorem assocLookup_eq_none {α β : Type} [DecidableEq α] (l : List (α × β)) (k : α) :
    assocLookup l k = none ↔ ∀ e ∈ l, e.1 ≠ k := by
  induction l with
  | nil => simp [assocLookup]
  | cons e rest ih =>
    by_cases hek : e.1 = k
    · simp [assocLookup, hek]
    · simp [assocLookup, hek, ih]

theorem mem_of_assocLookup {α β : Type} [DecidableEq α] (l : List (α × β)) (k : α)
    (b : β) (h : assocLookup l k = some b) : (k, b) ∈ l := by
  induction l with
  | nil => simp [assocLookup] at h
  | cons e rest ih =>
    by_cases hek : e.1 = k
    · simp only [assocLookup, hek, if_pos] at h
      have : e = (k, b) := by
        cases e
        simp_all
      simp [this]
    · simp only [assocLookup, hek, if_neg, if_false] at h
      exact List.mem_cons_of_mem _ (ih h)

theorem assocLookup_filter_ne (m : List (Nat × ArchiveBackend)) (k : Nat) :
    assocLookup (m.filter (fun e => e.1 != k)) k = none := by
  rw [assocLookup_eq_none]
  intro e he
  have := List.of_mem_filter he
  simpa using this

theorem countP_key_eq_zero_iff (m : List (Nat × ArchiveBackend)) (k : Nat) :
    m.countP (fun e => e.1 == k) = 0 ↔ assocLookup m k = none := by
  rw [List.countP_eq_zero, assocLookup_eq_none]
  constructor
  · intro hall e he
    have := hall e he
    simpa using this
  · intro hall e he
    have := hall e he
    simpa using this

/-! ### Inversion of the table operations and the well-formedness invariant -/

theorem openArchive_ok_inv (reg : Registry) (id_code : ArchiveIdCode) (p : Path)
    (s : TableState) (h : Nat) (s' : TableState)
    (hok : OpenArchive reg id_code p s = (Except.ok h, s')) :
    ∃ factory res, assocLookup reg id_code = some factory ∧
      factory.openArchive p = Except.ok res ∧
      h = allocHandle (keys s.handle_map) s.next_handle ∧
      s' = { handle_map := (h, { iid := s.next_iid, ops := res }) :: s.handle_map,
             next_handle := (h + 1) % wordSize,
             next_iid := s.next_iid + 1 } := by
  unfold OpenArchive at hok
  split at hok
  · simp at hok
  · rename_i factory hl
    split at hok
    · simp at hok
    · rename_i res ho
      simp only [Prod.mk.injEq, Except.ok.injEq] at hok
      obtain ⟨hh, hs⟩ := hok
      exact ⟨factory, res, hl, ho, hh.symm, by rw [← hs, ← hh]⟩

theorem closeArchive_cases (handle : Nat) (s : TableState) :
    (GetArchive s handle = none ∧
      CloseArchive handle s = (ResultCode.invalidArchiveHandle, s)) ∨
    (CloseArchive handle s =
      (ResultCode.success,
        { s with handle_map := s.handle_map.filter (fun e => e.1 != handle) })) := by
  by_cases h0 : s.handle_map.countP (fun e => e.1 == handle) = 0
  · left
    refine ⟨(countP_key_eq_zero_iff _ _).mp h0, ?_⟩
    simp [CloseArchive, h0]
  · right
    simp [CloseArchive, h0]

theorem wf_init : WF initState := by
  refine ⟨List.nodup_nil, ?_, ?_, ?_, List.Pairwise.nil⟩
  · intro k hk
    simp [initState, keys] at hk
  · norm_num [initState, wordSize]
  · intro e he
    simp [initState] at he

theorem wf_open (reg : Registry) (id_code : ArchiveIdCode) (p : Path)
    (s s' : TableState) (h : Nat) (hwf : WF s)
    (hroom : s.handle_map.length < wordSize)
    (hok : OpenArchive reg id_code p s = (Except.ok h, s')) : WF s' := by
  obtain ⟨factory, res, hl, ho, hh, hs'⟩ := openArchive_ok_inv reg id_code p s h s' hok
  obtain ⟨hnd, hkb, hnh, hiid, hpw⟩ := hwf
  have hlen : (keys s.handle_map).length < wordSize := by
    simpa [keys] using hroom
  have hfresh : h ∉ keys s.handle_map := by
    rw [hh]; exact allocHandle_not_mem _ _ hlen hnh
  have hlt : h < wordSize := by
    rw [hh]; exact allocHandle_lt _ _ hnh
  subst hs'
  refine ⟨?_, ?_, ?_, ?_, ?_⟩
  · exact List.nodup_cons.mpr ⟨hfresh, hnd⟩
  · intro k hk
    simp only [keys, List.map_cons, List.mem_cons] at hk
    rcases hk with rfl | hk
    · exact hlt
    · exact hkb k hk
  · exact Nat.mod_lt _ wordSize_pos
  · intro e he
    simp only [List.mem_cons] at he
    rcases he with rfl | he
    · exact Nat.lt_succ_self _
    · exact Nat.lt_succ_of_lt (hiid e he)
  · rw [List.pairwise_cons]
    refine ⟨?_, hpw⟩
    intro e he
    exact (hiid e he).ne'

theorem wf_close (handle : Nat) (r : ResultCode) (s s' : TableState) (hwf : WF s)
    (hc : CloseArchive handle s = (r, s')) : WF s' := by
  rcases closeArchive_cases handle s with ⟨-, heq⟩ | heq
  · rw [heq] at hc
    have hs : s = s' := congrArg Prod.snd hc
    rw [← hs]
    exact hwf
  · rw [heq] at hc
    have hs : ({ s with handle_map := s.handle_map.filter (fun e => e.1 != handle) } :
        TableState) = s' := congrArg Prod.snd hc
    obtain ⟨hnd, hkb, hnh, hiid, hpw⟩ := hwf
    rw [← hs]
    have hsub : List.Sublist (s.handle_map.filter (fun e => e.1 != handle))
        s.handle_map := List.filter_sublist _
    refine ⟨?_, ?_, hnh, ?_, ?_⟩
    · exact List.Nodup.sublist (hsub.map Prod.fst) hnd
    · intro k hk
      exact hkb k ((hsub.map Prod.fst).subset hk)
    · intro e he
      exact hiid e (hsub.subset he)
    · exact List.Pairwise.sublist hsub hpw

theorem reachable_wf (reg : Registry) (s : TableState) (hr : Reachable reg s) :
    WF s := by
  unfold Reachable at hr
  induction hr with
  | refl => exact wf_init
  | tail _ hstep ih =>
    cases hstep with
    | openStep id_code p h s1 s2 hroom hok => exact wf_open _ _ _ _ _ _ ih hroom hok
    | closeStep h r s1 s2 hc => exact wf_close _ _ _ _ ih hc

/-- In a well-formed table, two different live handles always resolve to two
different backend instances (the modelled pointer comparison is unequal). -/
theorem iid_ne_of_handle_ne (s : TableState) (hwf : WF s) (h1 h2 : Nat)
    (b1 b2 : ArchiveBackend) (hne : h1 ≠ h2)
    (hg1 : GetArchive s h1 = some b1) (hg2 : GetArchive s h2 = some b2) :
    b1.iid ≠ b2.iid := by
  obtain ⟨-, -, -, -, hpw⟩ := hwf
  have m1 : (h1, b1) ∈ s.handle_map := mem_of_assocLookup _ _ _ hg1
  have m2 : (h2, b2) ∈ s.handle_map := mem_of_assocLookup _ _ _ hg2
  have hpair : (h1, b1) ≠ (h2, b2) := by
    intro hcontra
    exact hne (congrArg Prod.fst hcontra)
  have hsymm : Symmetric (fun a b : Nat × ArchiveBackend => a.2.iid ≠ b.2.iid) :=
    fun _ _ hab => hab.symm
  exact List.Pairwise.forall hsymm hpw m1 m2 hpair

theorem ResultCode.isError_iff (r : ResultCode) :
    r.isError = true ↔ r ≠ ResultCode.success := by
  cases r <;> simp [ResultCode.isError]

/-! ### The claims -/

/-- C9: for every u32 value `p` and every File Session state, `SetPriority p`
followed by `GetPriority` returns `p`, both commands report success, and
neither command reads or mutates the backend file object: the backend is
left untouched, `GetPriority` leaves the whole session untouched, and both
results are independent of the backend contents. -/
theorem C9_set_get_priority_roundtrip (f : File) (p : Nat) :
    (File.SetPriority f p).2 = ResultCode.success ∧
    (File.GetPriority (File.SetPriority f p).1).2 = (ResultCode.success, p) ∧
    (File.GetPriority (File.SetPriority f p).1).1 = (File.SetPriority f p).1 ∧
    (File.SetPriority f p).1.backend = f.backend ∧
    (∀ b : FileBackend,
      (File.SetPriority { f with backend := b } p).1.priority = p ∧
      (File.GetPriority { (File.SetPriority f p).1 with backend := b }).2 =
        (ResultCode.success, p)) :=
  ⟨rfl, rfl, rfl, rfl, fun _ => ⟨rfl, rfl⟩⟩

/-- C10: whenever the backend read fails, the File `Read` response carries
the backend's own error code together with a pushed byte count of exactly 0,
and no write into the caller's mapped buffer is performed. -/
theorem C10_read_backend_failure (f : File) (offset length : Nat)
    (e : ResultCode) (hfail : f.backend.read offset length = Except.error e) :
    (File.Read f offset length).1 =
      { code := e, bytesRead := 0, bufferWrites := [] } := by
  unfold File.Read
  rw [hfail]

/-- Witness for C10: a concrete failing backend read. -/
theorem C10_read_backend_failure_witness :
    failingFile.backend.read 0 4 = Except.error (ResultCode.backendCode 7) ∧
    (File.Read failingFile 0 4).1 =
      { code := ResultCode.backendCode 7, bytesRead := 0, bufferWrites := [] } :=
  ⟨rfl, C10_read_backend_failure failingFile 0 4 (ResultCode.backendCode 7) rfl⟩

/-- C8: a read whose `offset + length` exceeds the backend's reported size is
neither clamped nor rejected by the protocol layer: the backend read is
still issued with the caller's original offset and length, and the caller
receives exactly the backend's own error, or success with the backend's byte
count. -/
theorem C8_read_out_of_bounds_forwarded (f : File) (offset length : Nat)
    (_hoob : offset + length > f.backend.size) :
    (File.Read f offset length).2 = [Event.backendRead offset length] ∧
    (∀ e, f.backend.read offset length = Except.error e →
      (File.Read f offset length).1 =
        { code := e, bytesRead := 0, bufferWrites := [] }) ∧
    (∀ n data, f.backend.read offset length = Except.ok (n, data) →
      (File.Read f offset length).1 =
        { code := ResultCode.success, bytesRead := n,
          bufferWrites := [(0, data.take n)] }) := by
  refine ⟨?_, ?_, ?_⟩
  · unfold File.Read
    cases hread : f.backend.read offset length with
    | error e => rfl
    | ok v =>
      obtain ⟨n, data⟩ := v
      rfl
  · intro e he
    unfold File.Read
    rw [he]
  · intro n data he
    unfold File.Read
    rw [he]

/-- Witness for C8: a concrete out-of-bounds read (offset 10, length 6
against a backend of size 4) still reaches the backend unclamped and returns
the backend's 3-byte result. -/
theorem C8_read_out_of_bounds_forwarded_witness :
    (10 : Nat) + 6 > shortFile.backend.size ∧
    (File.Read shortFile 10 6).2 = [Event.backendRead 10 6] ∧
    (File.Read shortFile 10 6).1 =
      { code := ResultCode.success, bytesRead := 3,
        bufferWrites := [(0, [1, 2, 3])] } := by
  refine ⟨by decide, ?_, ?_⟩
  · exact (C8_read_out_of_bounds_forwarded shortFile 10 6 (by decide)).1
  · exact (C8_read_out_of_bounds_forwarded shortFile 10 6 (by decide)).2.2
      3 [1, 2, 3, 4, 5, 6] rfl

/-- C2 counterexample: a backend whose resize and flush calls fail, while the
File Session's `SetSize` and `Flush` responses are nevertheless success: the
backend's failure is replaced by success, so the claim that SetSize and
Flush report the backend's failure is false on this code. -/
theorem C2_setsize_flush_counterexample :
    failingFile.backend.setSizeRes 42 = ResultCode.genericError ∧
    (File.SetSize failingFile 42).2 = ResultCode.success ∧
    failingFile.backend.flushRes = ResultCode.genericError ∧
    (File.Flush failingFile).2 = ResultCode.success ∧
    ResultCode.genericError ≠ ResultCode.success :=
  ⟨rfl, rfl, rfl, rfl, by decide⟩

/-- C2 (amended): `Read` and `Write` forward the backend's error result
unchanged to the caller, but `SetSize` and `Flush` discard the backend's
result and unconditionally report success. -/
theorem C2_backend_result_forwarding (f : File) (offset length flushArg n : Nat)
    (data : List Nat) (e : ResultCode) :
    (f.backend.read offset length = Except.error e →
      (File.Read f offset length).1.code = e) ∧
    (f.backend.write offset length (flushArg != 0) data = Except.error e →
      (File.Write f offset length flushArg data).1 = e) ∧
    (File.SetSize f n).2 = ResultCode.success ∧
    (File.Flush f).2 = ResultCode.success := by
  refine ⟨?_, ?_, rfl, rfl⟩
  · intro he
    simp [File.Read, he]
  · intro he
    simp [File.Write, he]

/-- Witness for the amended C2 at a concrete failing backend. -/
theorem C2_backend_result_forwarding_witness :
    failingFile.backend.read 0 4 = Except.error (ResultCode.backendCode 7) ∧
    (File.Read failingFile 0 4).1.code = ResultCode.backendCode 7 ∧
    failingFile.backend.write 0 4 (1 != 0) [9] =
      Except.error (ResultCode.backendCode 8) ∧
    (File.Write failingFile 0 4 1 [9]).1 = ResultCode.backendCode 8 ∧
    (File.SetSize failingFile 9).2 = ResultCode.success ∧
    (File.Flush failingFile).2 = ResultCode.success := by
  have h7 := C2_backend_result_forwarding failingFile 0 4 1 9 [9]
    (ResultCode.backendCode 7)
  have h8 := C2_backend_result_forwarding failingFile 0 4 1 9 [9]
    (ResultCode.backendCode 8)
  exact ⟨rfl, h7.1 rfl, rfl, h8.2.1 rfl, h7.2.2.1, h7.2.2.2⟩

/-- C3 counterexample: the SaveData id is not present in `regSDMC`, yet
`FormatArchive` and `GetArchiveFormatInfo` return the Unimplemented error,
which is not the NotFound error class: the claim is false on this code. -/
theorem C3_unknown_id_counterexample :
    assocLookup regSDMC ArchiveIdCode.SaveData = none ∧
    FormatArchive regSDMC ArchiveIdCode.SaveData 0 Path.emptyPath =
      ResultCode.unimplemented ∧
    GetArchiveFormatInfo regSDMC ArchiveIdCode.SaveData Path.emptyPath =
      Except.error ResultCode.unimplemented ∧
    ResultCode.unimplemented ≠ ResultCode.notFound :=
  ⟨rfl, rfl, rfl, by decide⟩

/-- C3 (amended): for every StorageTypeId not present in the factory
registry, `FormatArchive` and `GetArchiveFormatInfo` return the
Unimplemented error (`UnimplementedFunction(ErrorModule::FS)`, kept behind
an in-code TODO), not the NotFound error used by `OpenArchive`. -/
theorem C3_unknown_id_unimplemented (reg : Registry) (id_code : ArchiveIdCode)
    (format_info : Nat) (p q : Path)
    (hmiss : assocLookup reg id_code = none) :
    FormatArchive reg id_code format_info p = ResultCode.unimplemented ∧
    FormatArchive reg id_code format_info p ≠ ResultCode.notFound ∧
    GetArchiveFormatInfo reg id_code q = Except.error ResultCode.unimplemented := by
  have h1 : FormatArchive reg id_code format_info p = ResultCode.unimplemented := by
    unfold FormatArchive
    rw [hmiss]
  have h2 : GetArchiveFormatInfo reg id_code q =
      Except.error ResultCode.unimplemented := by
    unfold GetArchiveFormatInfo
    rw [hmiss]
  refine ⟨h1, ?_, h2⟩
  rw [h1]
  decide

/-- Witness for the amended C3 at a concrete registry miss. -/
theorem C3_unknown_id_unimplemented_witness :
    FormatArchive regSDMC ArchiveIdCode.NCCH 5 Path.emptyPath =
      ResultCode.unimplemented ∧
    FormatArchive regSDMC ArchiveIdCode.NCCH 5 Path.emptyPath ≠
      ResultCode.notFound ∧
    GetArchiveFormatInfo regSDMC ArchiveIdCode.NCCH Path.emptyPath =
      Except.error ResultCode.unimplemented :=
  C3_unknown_id_unimplemented regSDMC ArchiveIdCode.NCCH 5
    Path.emptyPath Path.emptyPath rfl

/-- C6: for every handle value not currently in the handle table, every
handle-scoped operation (close, open file, open directory, delete
file/directory/directory-recursively, create file/directory, rename on
either side, get free bytes) returns the InvalidHandle error; closing an
unknown handle is an error and leaves the table unchanged, not a no-op; and
after a successful `CloseArchive h`, `h` immediately resolves to nothing, so
all those operations return InvalidHandle for it. -/
theorem C6_invalid_handle_everywhere (s : TableState) (h h2 : Nat)
    (p p2 : Path) (mode : Mode) (size : Nat)
    (hmiss : GetArchive s h = none) :
    OpenFileFromArchive s h p mode =
      Except.error ResultCode.invalidArchiveHandle ∧
    OpenDirectoryFromArchive s h p =
      Except.error ResultCode.invalidArchiveHandle ∧
    DeleteFileFromArchive s h p = ResultCode.invalidArchiveHandle ∧
    DeleteDirectoryFromArchive s h p = ResultCode.invalidArchiveHandle ∧
    DeleteDirectoryRecursivelyFromArchive s h p =
      ResultCode.invalidArchiveHandle ∧
    CreateFileInArchive s h p size = ResultCode.invalidArchiveHandle ∧
    CreateDirectoryFromArchive s h p = ResultCode.invalidArchiveHandle ∧
    (RenameFileBetweenArchives s h p h2 p2).1 =
      ResultCode.invalidArchiveHandle ∧
    (RenameFileBetweenArchives s h2 p2 h p).1 =
      ResultCode.invalidArchiveHandle ∧
    (RenameDirectoryBetweenArchives s h p h2 p2).1 =
      ResultCode.invalidArchiveHandle ∧
    (RenameDirectoryBetweenArchives s h2 p2 h p).1 =
      ResultCode.invalidArchiveHandle ∧
    GetFreeBytesInArchive s h = Except.error ResultCode.invalidArchiveHandle ∧
    CloseArchive h s = (ResultCode.invalidArchiveHandle, s) ∧
    (∀ s', CloseArchive h2 s = (ResultCode.success, s') →
      GetArchive s' h2 = none) := by
  refine ⟨?_, ?_, ?_, ?_, ?_, ?_, ?_, ?_, ?_, ?_, ?_, ?_, ?_, ?_⟩
  · simp [OpenFileFromArchive, hmiss]
  · simp [OpenDirectoryFromArchive, hmiss]
  · simp [DeleteFileFromArchive, hmiss]
  · simp [DeleteDirectoryFromArchive, hmiss]
  · simp [DeleteDirectoryRecursivelyFromArchive, hmiss]
  · simp [CreateFileInArchive, hmiss]
  · simp [CreateDirectoryFromArchive, hmiss]
  · unfold RenameFileBetweenArchives
    cases GetArchive s h2 <;> rw [hmiss]
  · unfold RenameFileBetweenArchives
    cases GetArchive s h2 <;> rw [hmiss]
  · unfold RenameDirectoryBetweenArchives
    cases GetArchive s h2 <;> rw [hmiss]
  · unfold RenameDirectoryBetweenArchives
    cases GetArchive s h2 <;> rw [hmiss]
  · simp [GetFreeBytesInArchive, hmiss]
  · have hcount : s.handle_map.countP (fun e => e.1 == h) = 0 :=
      (countP_key_eq_zero_iff s.handle_map h).mpr hmiss
    simp [CloseArchive, hcount]
  · intro s' hc
    rcases closeArchive_cases h2 s with ⟨-, heq⟩ | heq
    · rw [heq] at hc
      have hfst : ResultCode.invalidArchiveHandle = ResultCode.success :=
        congrArg Prod.fst hc
      exact absurd hfst (by decide)
    · rw [heq] at hc
      have hs : ({ s with handle_map :=
          s.handle_map.filter (fun e => e.1 != h2) } : TableState) = s' :=
        congrArg Prod.snd hc
      rw [← hs]
      exact assocLookup_filter_ne s.handle_map h2

/-- Witness for C6: handle 7 is not live in `oneArchState`, handle 1 is. -/
theorem C6_invalid_handle_everywhere_witness :
    DeleteFileFromArchive oneArchState 7 Path.emptyPath =
      ResultCode.invalidArchiveHandle ∧
    CloseArchive 7 oneArchState = (ResultCode.invalidArchiveHandle, oneArchState) ∧
    (∀ s', CloseArchive 1 oneArchState = (ResultCode.success, s') →
      GetArchive s' 1 = none) := by
  have h6 := C6_invalid_handle_everywhere oneArchState 7 1 Path.emptyPath
    Path.emptyPath 0 0 rfl
  exact ⟨h6.2.2.1, h6.2.2.2.2.2.2.2.2.2.2.2.2.1, h6.2.2.2.2.2.2.2.2.2.2.2.2.2⟩

/-- C4: an unregistered StorageTypeId makes `OpenArchive` return the
NotFound error with the table unchanged; a registered one whose factory open
succeeds makes it return a handle that is distinct from every handle
currently live in the table (in any reachable table state whose live count
is below `2^64`, which is exactly when the C++ allocation loop returns). -/
theorem C4_openArchive_notFound_or_fresh (reg : Registry)
    (id_code : ArchiveIdCode) (p : Path) (s : TableState)
    (hreach : Reachable reg s) (hroom : s.handle_map.length < wordSize) :
    (assocLookup reg id_code = none →
      OpenArchive reg id_code p s = (Except.error ResultCode.notFound, s)) ∧
    (∀ factory res, assocLookup reg id_code = some factory →
      factory.openArchive p = Except.ok res →
      ∃ h s', OpenArchive reg id_code p s = (Except.ok h, s') ∧
        h ∉ keys s.handle_map) := by
  obtain ⟨-, -, hnh, -, -⟩ := reachable_wf reg s hreach
  constructor
  · intro hmiss
    unfold OpenArchive
    rw [hmiss]
  · intro factory res hl ho
    refine ⟨allocHandle (keys s.handle_map) s.next_handle,
      { handle_map := (allocHandle (keys s.handle_map) s.next_handle,
          { iid := s.next_iid, ops := res }) :: s.handle_map,
        next_handle :=
          (allocHandle (keys s.handle_map) s.next_handle + 1) % wordSize,
        next_iid := s.next_iid + 1 }, ?_, ?_⟩
    · simp only [OpenArchive, hl, ho]
    · apply allocHandle_not_mem
      · simpa [keys] using hroom
      · exact hnh

/-- Witness for C4: from the initial state, the SaveData id misses the
one-entry registry while the SDMC id yields the fresh handle 1. -/
theorem C4_openArchive_notFound_or_fresh_witness :
    OpenArchive regSDMC ArchiveIdCode.SaveData Path.emptyPath initState =
      (Except.error ResultCode.notFound, initState) ∧
    (∃ h s', OpenArchive regSDMC ArchiveIdCode.SDMC Path.emptyPath initState =
      (Except.ok h, s') ∧ h ∉ keys initState.handle_map) := by
  have hmiss := C4_openArchive_notFound_or_fresh regSDMC ArchiveIdCode.SaveData
    Path.emptyPath initState Relation.ReflTransGen.refl
    (by norm_num [initState, wordSize])
  have hhit := C4_openArchive_notFound_or_fresh regSDMC ArchiveIdCode.SDMC
    Path.emptyPath initState Relation.ReflTransGen.refl
    (by norm_num [initState, wordSize])
  exact ⟨hmiss.1 rfl, hhit.2 alwaysOpenFactory trivialArchiveOps rfl rfl⟩

/-- C7: a rename whose source and destination handle are the same delegates
to that archive's backend (with exactly one backend rename call carrying the
two paths), while a rename across two distinct valid handles of a reachable
table — which always resolve to two different backend instances, since each
table entry owns its instance exclusively — returns the Unimplemented error
and performs no backend rename call at all (so neither path is mutated). -/
theorem C7_rename_same_vs_cross (reg : Registry) (s : TableState)
    (hreach : Reachable reg s) (h1 h2 : Nat) (p1 p2 : Path)
    (b1 b2 : ArchiveBackend) :
    (GetArchive s h1 = some b1 →
      RenameFileBetweenArchives s h1 p1 h1 p2 =
        (b1.ops.renameFile p1 p2, [Event.backendRenameFile b1.iid p1 p2]) ∧
      RenameDirectoryBetweenArchives s h1 p1 h1 p2 =
        (b1.ops.renameDirectory p1 p2,
          [Event.backendRenameDirectory b1.iid p1 p2])) ∧
    (h1 ≠ h2 → GetArchive s h1 = some b1 → GetArchive s h2 = some b2 →
      b1.iid ≠ b2.iid ∧
      RenameFileBetweenArchives s h1 p1 h2 p2 = (ResultCode.unimplemented, []) ∧
      RenameDirectoryBetweenArchives s h1 p1 h2 p2 =
        (ResultCode.unimplemented, [])) := by
  constructor
  · intro hg1
    constructor
    · simp [RenameFileBetweenArchives, hg1]
    · simp [RenameDirectoryBetweenArchives, hg1]
  · intro hne hg1 hg2
    have hwf := reachable_wf reg s hreach
    have hiid := iid_ne_of_handle_ne s hwf h1 h2 b1 b2 hne hg1 hg2
    refine ⟨hiid, ?_, ?_⟩
    · simp [RenameFileBetweenArchives, hg1, hg2, hiid]
    · simp [RenameDirectoryBetweenArchives, hg1, hg2, hiid]

/-- Witness for C7 on a concrete reachable two-archive table: a same-handle
rename delegates to the backend, a cross-handle rename is Unimplemented with
no backend call. -/
theorem C7_rename_same_vs_cross_witness :
    RenameFileBetweenArchives twoArchState 1 Path.emptyPath 1 Path.emptyPath =
      (ResultCode.success, [Event.backendRenameFile 0 Path.emptyPath Path.emptyPath]) ∧
    RenameFileBetweenArchives twoArchState 1 Path.emptyPath 2 Path.emptyPath =
      (ResultCode.unimplemented, []) ∧
    RenameDirectoryBetweenArchives twoArchState 1 Path.emptyPath 2 Path.emptyPath =
      (ResultCode.unimplemented, []) := by
  have hstep1 : Step regSDMC initState oneArchState :=
    Step.openStep ArchiveIdCode.SDMC Path.emptyPath 1 initState oneArchState
      (by norm_num [initState, wordSize]) rfl
  have hstep2 : Step regSDMC oneArchState twoArchState :=
    Step.openStep ArchiveIdCode.SDMC Path.emptyPath 2 oneArchState twoArchState
      (by norm_num [oneArchState, wordSize]) rfl
  have hreach : Reachable regSDMC twoArchState :=
    Relation.ReflTransGen.tail
      (Relation.ReflTransGen.tail Relation.ReflTransGen.refl hstep1) hstep2
  have h7 := C7_rename_same_vs_cross regSDMC twoArchState hreach 1 2
    Path.emptyPath Path.emptyPath
    { iid := 0, ops := trivialArchiveOps } { iid := 1, ops := trivialArchiveOps }
  have hsame := h7.1 rfl
  have hcross := h7.2 (by decide) rfl rfl
  exact ⟨hsame.1, hcross.2.1, hcross.2.2⟩

/-- C1 counterexample: with the ExtSaveData factory registered and every
guest address invalid, `CreateExtSaveData` does return an error for the
invalid icon source region, but the container format mutation has already
been performed when the failure is reported — the emitted event list is not
empty, falsifying the no-mutation-before-failure claim. -/
theorem C1_format_before_icon_check_counterexample :
    memAllInvalid 57005 = false ∧
    CreateExtSaveData regExt memAllInvalid MediaType.SDMC 0 0 57005 16 0 =
      (ResultCode.genericError, [Event.factoryFormat (Path.extData 1 0 0) 0]) ∧
    [Event.factoryFormat (Path.extData 1 0 0) 0] ≠ ([] : List Event) :=
  ⟨rfl, rfl, by decide⟩

/-- C1 (amended): when the caller-supplied icon source region is an invalid
virtual address, `CreateExtSaveData` does return an error and never writes
the icon, but the failure is reported only after the extended-data container
has been formatted: whenever the factory is registered and its `Format`
succeeds, the format mutation has already occurred by the time the
invalid-icon error is returned. -/
theorem C1_icon_invalid_error_after_format (reg : Registry)
    (memValid : Nat → Bool) (media_type : MediaType)
    (high low icon_buffer icon_size format_info : Nat)
    (hinv : memValid icon_buffer = false) :
    (CreateExtSaveData reg memValid media_type high low icon_buffer icon_size
        format_info).1 ≠ ResultCode.success ∧
    (∀ q sz, Event.writeIcon q sz ∉
      (CreateExtSaveData reg memValid media_type high low icon_buffer icon_size
        format_info).2) ∧
    (∀ factory,
      assocLookup reg
        (if media_type = MediaType.NAND then ArchiveIdCode.SharedExtSaveData
         else ArchiveIdCode.ExtSaveData) = some factory →
      factory.format (ConstructExtDataBinaryPath media_type high low)
          format_info = ResultCode.success →
      CreateExtSaveData reg memValid media_type high low icon_buffer icon_size
          format_info =
        (ResultCode.genericError,
          [Event.factoryFormat (ConstructExtDataBinaryPath media_type high low)
            format_info])) := by
  simp only [CreateExtSaveData]
  cases hl : assocLookup reg
      (if media_type = MediaType.NAND then ArchiveIdCode.SharedExtSaveData
       else ArchiveIdCode.ExtSaveData) with
  | none =>
    refine ⟨by simp, by simp, ?_⟩
    intro factory hl2
    exact absurd hl2 (by simp)
  | some factory =>
    by_cases hz : (factory.format
        (ConstructExtDataBinaryPath media_type high low) format_info).isError
    · refine ⟨?_, ?_, ?_⟩
      · simp only [hz, if_true]
        exact (ResultCode.isError_iff _).mp hz
      · intro q sz
        simp [hz]
      · intro factory2 hl2 hfmt
        have hf2 : factory2 = factory := by
          injection hl2 with hinj
          exact hinj.symm
        rw [hf2] at hfmt
        rw [hfmt] at hz
        simp [ResultCode.isError] at hz
    · refine ⟨?_, ?_, ?_⟩
      · simp [hz, hinv]
      · intro q sz
        simp [hz, hinv]
      · intro factory2 hl2 hfmt
        simp [hz, hinv]

/-- Witness for the amended C1 at the concrete counterexample inputs. -/
theorem C1_icon_invalid_error_after_format_witness :
    (CreateExtSaveData regExt memAllInvalid MediaType.SDMC 0 0 57005 16 0).1 ≠
      ResultCode.success ∧
    CreateExtSaveData regExt memAllInvalid MediaType.SDMC 0 0 57005 16 0 =
      (ResultCode.genericError,
        [Event.factoryFormat (Path.extData 1 0 0) 0]) := by
  have h1 := C1_icon_invalid_error_after_format regExt memAllInvalid
    MediaType.SDMC 0 0 57005 16 0 rfl
  exact ⟨h1.1, h1.2.2 alwaysOpenFactory rfl rfl⟩

/-- Opening one archive and closing it again advances the allocation counter
by one (mod `2^64`); by induction the empty table with any counter value
`(1 + n) % 2^64` is reachable — in particular the counter can wrap all the
way around to zero. -/
theorem reachable_empty_any_counter (n : Nat) :
    Reachable regSDMC
      { handle_map := [], next_handle := (1 + n) % wordSize, next_iid := n } := by
  induction n with
  | zero =>
    have h1 : (1 + 0) % wordSize = 1 := by norm_num [wordSize]
    rw [h1]
    exact Relation.ReflTransGen.refl
  | succ m ih =>
    have hopen : OpenArchive regSDMC ArchiveIdCode.SDMC Path.emptyPath
        { handle_map := [], next_handle := (1 + m) % wordSize, next_iid := m } =
        (Except.ok ((1 + m) % wordSize),
          { handle_map :=
              [((1 + m) % wordSize, { iid := m, ops := trivialArchiveOps })],
            next_handle := ((1 + m) % wordSize + 1) % wordSize,
            next_iid := m + 1 }) := by
      simp [OpenArchive, regSDMC, alwaysOpenFactory, assocLookup, allocHandle,
        allocAux, keys]
    have hclose : CloseArchive ((1 + m) % wordSize)
        { handle_map :=
            [((1 + m) % wordSize, { iid := m, ops := trivialArchiveOps })],
          next_handle := ((1 + m) % wordSize + 1) % wordSize,
          next_iid := m + 1 } =
        (ResultCode.success,
          { handle_map := [],
            next_handle := ((1 + m) % wordSize + 1) % wordSize,
            next_iid := m + 1 }) := by
      simp [CloseArchive]
    have hmod : ((1 + m) % wordSize + 1) % wordSize = (1 + (m + 1)) % wordSize := by
      rw [Nat.mod_add_mod]
      congr 1
    rw [← hmod]
    exact Relation.ReflTransGen.tail
      (Relation.ReflTransGen.tail ih
        (Step.openStep ArchiveIdCode.SDMC Path.emptyPath _ _ _
          (by norm_num [wordSize]) hopen))
      (Step.closeStep _ _ _ _ hclose)

/-- C5 counterexample: the empty-table state with allocation counter 0 is
reachable (after a full 64-bit wraparound of the counter), and from it a
successful `OpenArchive` returns the handle 0 — zero is allocated, because
the skip loop only skips values currently in use and nothing reserves 0. -/
theorem C5_zero_handle_counterexample :
    Reachable regSDMC wrapState ∧
    (OpenArchive regSDMC ArchiveIdCode.SDMC Path.emptyPath wrapState).1 =
      Except.ok 0 := by
  constructor
  · have hr := reachable_empty_any_counter (wordSize - 1)
    have heq : (1 + (wordSize - 1)) % wordSize = 0 := by
      have hpos := wordSize_pos
      have hsum : 1 + (wordSize - 1) = wordSize := by omega
      rw [hsum, Nat.mod_self]
    rw [heq] at hr
    exact hr
  · rfl

/-- C5 (amended): at every reachable table state, live handles are
duplicate-free and each holds a distinct backend instance (at most one live
backend per handle value); a completed `OpenArchive` allocates monotonically
skipping exactly the values in use, so the returned handle is never a
currently live one, and it is strictly positive provided the counter has not
wrapped around (counter at least 1, and counter + live count + 1 at most
`2^64 - 1`).  Once the counter has wrapped to 0, however, the handle 0 can
be returned, since only in-use values are skipped. -/
theorem C5_handle_allocation_invariants (reg : Registry) (s : TableState)
    (hreach : Reachable reg s) :
    (keys s.handle_map).Nodup ∧
    List.Pairwise (fun a b : Nat × ArchiveBackend => a.2.iid ≠ b.2.iid)
      s.handle_map ∧
    (∀ id_code p h s', s.handle_map.length < wordSize →
      OpenArchive reg id_code p s = (Except.ok h, s') →
      h ∉ keys s.handle_map ∧
      (1 ≤ s.next_handle →
        s.next_handle + s.handle_map.length + 1 < wordSize → 1 ≤ h)) := by
  obtain ⟨hnd, -, hnh, -, hpw⟩ := reachable_wf reg s hreach
  refine ⟨hnd, hpw, ?_⟩
  intro id_code p h s' hroom hok
  obtain ⟨factory, res, -, -, hh, -⟩ :=
    openArchive_ok_inv reg id_code p s h s' hok
  have hklen : (keys s.handle_map).length = s.handle_map.length := by
    simp [keys]
  have hlen : (keys s.handle_map).length < wordSize := by omega
  constructor
  · rw [hh]
    exact allocHandle_not_mem _ _ hlen hnh
  · intro hone hwindow
    obtain ⟨i, hile, hrange⟩ :=
      allocAux_range ((keys s.handle_map).length + 1) s.next_handle
        (keys s.handle_map) hnh
    rw [allocHandle] at hh
    rw [hrange] at hh
    have hsmall : s.next_handle + i < wordSize := by omega
    rw [Nat.mod_eq_of_lt hsmall] at hh
    omega

/-- Witness for the amended C5: from the initial state the first open yields
handle 1, fresh and strictly positive, and the initial table is
duplicate-free. -/
theorem C5_handle_allocation_invariants_witness :
    (keys initState.handle_map).Nodup ∧
    (1 : Nat) ∉ keys initState.handle_map ∧ (1 : Nat) ≤ 1 := by
  have h5 := C5_handle_allocation_invariants regSDMC initState
    Relation.ReflTransGen.refl
  have h3 := h5.2.2 ArchiveIdCode.SDMC Path.emptyPath 1 oneArchState
    (by norm_num [initState, wordSize]) rfl
  exact ⟨h5.1, h3.1, h3.2 (by norm_num [initState])
    (by norm_num [initState, wordSize])⟩

end CitraFS
